import Mathlib

/-!
Verification development for the virtual-interview orchestration core
(`main.py` of the anke_gen repository).

The Completion Provider (an LLM round-trip) is modelled as an explicit
parameter: either the raw text it returned (for the parsing components,
which only ever see that text) or a function returning `Option String`
(`none` models a raised provider exception).  Wall-clock timestamp fields
(`datetime.now` defaults on messages and sessions) are elided; the
timestamp fragment embedded in generated session ids is passed as an
explicit string parameter.  Exceptions are modelled by `Option`/`Except`
results, and orchestrator operations return the (possibly unchanged)
state next to the result, mirroring Python exception semantics where
mutations performed before a raise persist.
-/

/-! ## Python string primitives used by `main.py` -/

/-- Whitespace characters removed by Python `str.strip()`. -/
def isPyWhitespace (c : Char) : Bool :=
  c = ' ' || c = '\t' || c = '\n' || c = '\r' || c = '\x0b' || c = '\x0c'

/-- Python `str.strip()` on a character list. -/
def stripChars (l : List Char) : List Char :=
  ((l.dropWhile isPyWhitespace).reverse.dropWhile isPyWhitespace).reverse

/-- Python `str.strip()`. -/
def pyStrip (s : String) : String :=
  String.mk (stripChars s.toList)

/-- Split a character list on every occurrence of a single character,
Python `str.split(c)` semantics (`"".split(c) = [""]`). -/
def splitOnChar (c : Char) : List Char → List (List Char)
  | [] => [[]]
  | x :: xs =>
    match splitOnChar c xs with
    | [] => [[]]
    | g :: gs => if x = c then [] :: g :: gs else (x :: g) :: gs

/-- Split a character list on every non-overlapping occurrence of the
two-character separator `c, c`, leftmost first — Python
`str.split(cc)` semantics for a separator made of one repeated char. -/
def splitOnTwoChar (c : Char) : List Char → List (List Char)
  | [] => [[]]
  | [x] => [[x]]
  | x :: y :: rest =>
    if x = c ∧ y = c then
      [] :: splitOnTwoChar c rest
    else
      match splitOnTwoChar c (y :: rest) with
      | [] => [[]]
      | g :: gs => (x :: g) :: gs

/-- Split at the first occurrence of `c`, Python `str.split(c, 1)`;
`none` when `c` does not occur. -/
def splitFirst (c : Char) : List Char → Option (List Char × List Char)
  | [] => none
  | x :: xs =>
    if x = c then some ([], xs)
    else (splitFirst c xs).map (fun p => (x :: p.1, p.2))

/-- Python `str.split('\n\n')`. -/
def pySplitDoubleNewline (s : String) : List String :=
  (splitOnTwoChar '\n' s.toList).map String.mk

/-- Python `str.split('\n')`. -/
def pyLines (s : String) : List String :=
  (splitOnChar '\n' s.toList).map String.mk

/-- Python `line.split(':', 1)` guarded by `':' in line`. -/
def pySplitOnceColon (s : String) : Option (String × String) :=
  (splitFirst ':' s.toList).map (fun p => (String.mk p.1, String.mk p.2))

/-- Decimal digit accumulation for `int(...)`. -/
def digitsAux : List Char → Nat → Option Nat
  | [], acc => some acc
  | c :: cs, acc =>
    if c.isDigit then digitsAux cs (acc * 10 + (c.toNat - '0'.toNat)) else none

/-- Nonempty all-digit parse. -/
def digitsVal : List Char → Option Nat
  | [] => none
  | l => digitsAux l 0

/-- Python `int(s)` on a string: surrounding whitespace stripped, optional
sign, nonempty digit run (digit-group underscores are not modelled);
`none` models the `ValueError` it raises otherwise. -/
def pyInt (s : String) : Option Int :=
  match stripChars s.toList with
  | '-' :: ds => (digitsVal ds).map (fun n => -(n : Int))
  | '+' :: ds => (digitsVal ds).map (fun n => (n : Int))
  | ds => (digitsVal ds).map (fun n => (n : Int))

/-! ## Data model (`main.py` pydantic models) -/

/-- `SurveyRequirements`. -/
structure SurveyRequirements where
  product_category : String
  target_age_range : String
  target_gender : String
  survey_purpose : String
  key_questions : List String
  additional_requirements : String
deriving DecidableEq, Repr

/-- `VirtualPersona`. -/
structure VirtualPersona where
  id : String
  name : String
  age : Int
  gender : String
  occupation : String
  household_composition : String
  income_level : String
  lifestyle : String
  shopping_behavior : String
  personality : String
  background_story : String
deriving DecidableEq, Repr

/-- `ChatMessage` (timestamp elided). -/
structure ChatMessage where
  role : String
  content : String
deriving DecidableEq, Repr

/-- `InterviewSession` (start/end times elided). -/
structure InterviewSession where
  session_id : String
  persona : VirtualPersona
  messages : List ChatMessage
deriving DecidableEq, Repr

/-- `FixedQuestionInterview`. -/
structure FixedQuestionInterview where
  persona : VirtualPersona
  questions : List String
  answers : List String
deriving DecidableEq, Repr

/-- Demographic distributions inside `quantitative_results`
(insertion-ordered counters, mirroring Python dicts). -/
structure Demographics where
  age_distribution : List (String × Nat)
  gender_distribution : List (String × Nat)
  occupation_distribution : List (String × Nat)
deriving DecidableEq, Repr

/-- The `quantitative_results` payload built by
`InterviewAnalyzer._analyze_quantitative_data`. -/
structure QuantitativeResults where
  demographics : Demographics
  response_patterns : List (String × Nat)
deriving DecidableEq, Repr

/-- `InterviewSummary`. -/
structure InterviewSummary where
  total_personas : Nat
  total_interviews : Nat
  key_insights : List String
  quantitative_results : QuantitativeResults
  recommendations : List String
deriving DecidableEq, Repr

/-- `VirtualInterviewState`. -/
structure VirtualInterviewState where
  survey_requirements : Option SurveyRequirements
  personas : List VirtualPersona
  chat_sessions : List InterviewSession
  fixed_interviews : List FixedQuestionInterview
  summary : Option InterviewSummary
deriving DecidableEq, Repr

/-- The empty state created at orchestrator construction
(`VirtualInterviewState()` defaults). -/
def initState : VirtualInterviewState :=
  { survey_requirements := none, personas := [], chat_sessions := [],
    fixed_interviews := [], summary := none }

/-- Exceptions raised by the core.  The first four are `ValueError`s in
the source; `provider` stands for any exception escaping a Completion
Provider call (`chain.invoke`); `badInput` for the `IndexError` of
indexing a too-short answer list. -/
inductive Err where
  | surveyRequirementsNotSet
  | personaNotFound (pid : String)
  | sessionNotFound (sid : String)
  | badInput
  | provider
deriving DecidableEq, Repr

/-- Which `Err`s correspond to `ValueError` in the source. -/
def Err.isValueError : Err → Bool
  | .surveyRequirementsNotSet => true
  | .personaNotFound _ => true
  | .sessionNotFound _ => true
  | .badInput => false
  | .provider => false

/-! ## `SurveyRequirementsCollector.parse_requirements` -/

/-- The fixed fallback `key_questions` list in
`SurveyRequirementsCollector.parse_requirements`. -/
def defaultKeyQuestions : List String :=
  ["商品の使用経験", "購買決定要因", "改善点"]

/-- `SurveyRequirementsCollector.parse_requirements`.  `decode` abstracts
`json.loads` followed by pydantic validation of `SurveyRequirements`
(`none` = any exception caught by the `except` branch); `result` is the
Completion Provider output.  A `none` return models the uncaught
`IndexError` when fewer than five answers are supplied. -/
def parseRequirements (decode : String → Option SurveyRequirements)
    (result : String) (answers : List String) : Option SurveyRequirements :=
  match answers with
  | [a1, a2, a3, a4, a5] =>
    some (match decode result with
      | some r => r
      | none =>
        { product_category := a1
          target_age_range := a2
          target_gender := a3
          survey_purpose := a4
          key_questions := defaultKeyQuestions
          additional_requirements := a5 })
  | _ => none

/-! ## `VirtualPersonaGenerator.generate_personas` -/

/-- Build the `persona_data` dict from the section's lines: lines with a
colon contribute `key.strip() → value.strip()`, in line order (a later
line with the same key overwrites — lookups take the last binding). -/
def buildPersonaDict : List String → List (String × String)
  | [] => []
  | line :: rest =>
    match pySplitOnceColon line with
    | none => buildPersonaDict rest
    | some kv => (pyStrip kv.1, pyStrip kv.2) :: buildPersonaDict rest

/-- `persona_data.get(k)`: last assignment wins. -/
def dictGet (d : List (String × String)) (k : String) : Option String :=
  d.reverse.lookup k

/-- The body of the `try` block for one section of the provider output
(0-based section index `i`); `none` models the caught exception
(`int(...)` failing) that makes the loop `continue`. -/
def parsePersonaSection (i : Nat) (sec : String) : Option VirtualPersona :=
  let d := buildPersonaDict (pyLines (pyStrip sec))
  let age : Option Int :=
    match dictGet d "年齢" with
    | none => some 30
    | some s => pyInt s
  age.map (fun a =>
    { id := (dictGet d "ID").getD ("persona_" ++ toString (i + 1))
      name := (dictGet d "名前").getD ("ペルソナ" ++ toString (i + 1))
      age := a
      gender := (dictGet d "性別").getD "女性"
      occupation := (dictGet d "職業").getD "会社員"
      household_composition := (dictGet d "世帯構成").getD "一人暮らし"
      income_level := (dictGet d "所得レベル").getD "300-500万円"
      lifestyle := (dictGet d "ライフスタイル").getD "普通"
      shopping_behavior := (dictGet d "購買行動").getD "月1回程度"
      personality := (dictGet d "性格・特徴").getD "慎重派"
      background_story := (dictGet d "背景ストーリー").getD "詳細な背景情報" })

/-- `VirtualPersonaGenerator.generate_personas`.  `requirements` and
`count` only shape the prompt sent to the Completion Provider, whose
returned text is the explicit `result` parameter; the parsing loop
splits on blank lines, skips empty sections, and drops sections whose
parse raises. -/
def generatePersonas (_requirements : SurveyRequirements) (_count : Nat)
    (result : String) : List VirtualPersona :=
  let sections := pySplitDoubleNewline (pyStrip result)
  sections.enum.filterMap (fun p =>
    if pyStrip p.2 = "" then none else parsePersonaSection p.1 p.2)

/-! ## `ChatInterviewManager` -/

/-- `ChatInterviewManager.create_session`; `ts` is the
`datetime.now().strftime(...)` fragment of the generated id. -/
def createSession (persona : VirtualPersona) (ts : String) : InterviewSession :=
  { session_id := "chat_" ++ persona.id ++ "_" ++ ts
    persona := persona
    messages := [] }

/-- `ChatInterviewManager.get_persona_response`: invoke the Completion
Provider with the persona context and the user message, then append the
user turn and the assistant turn; a provider exception (`none`) escapes
before any turn is appended. -/
def getPersonaResponse (prov : VirtualPersona → String → Option String)
    (session : InterviewSession) (userMessage : String) :
    Option (String × InterviewSession) :=
  match prov session.persona userMessage with
  | none => none
  | some response =>
    some (response,
      { session with
        messages := session.messages ++
          [{ role := "user", content := userMessage },
           { role := "assistant", content := response }] })

/-! ## `FixedQuestionInterviewManager` -/

/-- `FixedQuestionInterviewManager._get_persona_answer`: one provider
round-trip per (persona, question); no exception handling. -/
def getPersonaAnswer (prov : VirtualPersona → String → Option String)
    (persona : VirtualPersona) (question : String) : Option String :=
  prov persona question

/-- The inner `for question in questions` loop of `conduct_interviews`;
a provider exception propagates, discarding the answers so far. -/
def interviewAnswers (prov : VirtualPersona → String → Option String)
    (persona : VirtualPersona) : List String → Option (List String)
  | [] => some []
  | q :: qs =>
    match getPersonaAnswer prov persona q with
    | none => none
    | some a =>
      match interviewAnswers prov persona qs with
      | none => none
      | some rest => some (a :: rest)

/-- `FixedQuestionInterviewManager.conduct_interviews`: outer loop over
personas; any provider exception aborts the whole batch. -/
def conductInterviews (prov : VirtualPersona → String → Option String) :
    List VirtualPersona → List String → Option (List FixedQuestionInterview)
  | [], _ => some []
  | p :: ps, questions =>
    match interviewAnswers prov p questions with
    | none => none
    | some answers =>
      match conductInterviews prov ps questions with
      | none => none
      | some rest =>
        some ({ persona := p, questions := questions, answers := answers } :: rest)

/-! ## `InterviewAnalyzer` -/

/-- `[line.strip() for line in result.split('\n') if line.strip()][:k]`
(the insight / recommendation post-processing). -/
def extractLines (result : String) (k : Nat) : List String :=
  ((((pyLines result).map pyStrip).filter (fun l => l ≠ "")).take k)

/-- One `counts[key] = counts.get(key, 0) + 1` step on an
insertion-ordered counter. -/
def bumpCount (l : List (String × Nat)) (k : String) : List (String × Nat) :=
  match l with
  | [] => [(k, 1)]
  | kv :: rest =>
    if kv.1 = k then (kv.1, kv.2 + 1) :: rest else kv :: bumpCount rest k

/-- Frequency map of `f` over the personas, in first-appearance order
(Python dict insertion order). -/
def countBy (f : VirtualPersona → String) (ps : List VirtualPersona) :
    List (String × Nat) :=
  ps.foldl (fun acc p => bumpCount acc (f p)) []

/-- The decade bucket `f"{(persona.age // 10) * 10}代"` (Python `//` is
floor division). -/
def ageGroup (p : VirtualPersona) : String :=
  toString (Int.fdiv p.age 10 * 10) ++ "代"

/-- `InterviewAnalyzer._analyze_quantitative_data`. -/
def analyzeQuantitativeData (state : VirtualInterviewState) : QuantitativeResults :=
  { demographics :=
      { age_distribution := countBy ageGroup state.personas
        gender_distribution := countBy (fun p => p.gender) state.personas
        occupation_distribution := countBy (fun p => p.occupation) state.personas }
    response_patterns := [] }

/-- `InterviewAnalyzer._analyze_qualitative_data`, with the Completion
Provider's insight text as explicit parameter `insightsOut` (the call
succeeding; its failure fails the whole summary operation). -/
def analyzeQualitativeData (insightsOut : String) : List String :=
  extractLines insightsOut 5

/-- `InterviewAnalyzer._generate_recommendations`, with the Completion
Provider's text as explicit parameter `recsOut`. -/
def generateRecommendations (recsOut : String) : List String :=
  extractLines recsOut 3

/-- `InterviewAnalyzer.generate_summary` on a state, given the two
provider outputs of the qualitative and recommendation steps. -/
def generateSummary (state : VirtualInterviewState)
    (insightsOut recsOut : String) : InterviewSummary :=
  { total_personas := state.personas.length
    total_interviews := state.chat_sessions.length + state.fixed_interviews.length
    key_insights := analyzeQualitativeData insightsOut
    quantitative_results := analyzeQuantitativeData state
    recommendations := generateRecommendations recsOut }

/-! ## `VirtualInterviewSystem` (orchestrator)

Each operation returns its `Except` result paired with the successor
state; on an exception the state reflects exactly the mutations made
before the raise (none, in every operation below). -/

/-- `VirtualInterviewSystem.collect_survey_requirements`. -/
def collectSurveyRequirementsSys (st : VirtualInterviewState)
    (decode : String → Option SurveyRequirements) (result : String)
    (answers : List String) :
    Except Err SurveyRequirements × VirtualInterviewState :=
  match parseRequirements decode result answers with
  | none => (.error .badInput, st)
  | some req => (.ok req, { st with survey_requirements := some req })

/-- `VirtualInterviewSystem.generate_personas`: `ValueError` when no
requirements are set, otherwise parse the provider output and extend the
state's persona list. -/
def generatePersonasSys (st : VirtualInterviewState) (count : Nat)
    (result : String) :
    Except Err (List VirtualPersona) × VirtualInterviewState :=
  match st.survey_requirements with
  | none => (.error .surveyRequirementsNotSet, st)
  | some req =>
    let ps := generatePersonas req count result
    (.ok ps, { st with personas := st.personas ++ ps })

/-- `VirtualInterviewSystem.start_chat_session`: `ValueError` when no
persona carries the id, else create and append a session. -/
def startChatSession (st : VirtualInterviewState) (personaId : String)
    (ts : String) : Except Err InterviewSession × VirtualInterviewState :=
  match st.personas.find? (fun p => p.id == personaId) with
  | none => (.error (.personaNotFound personaId), st)
  | some p =>
    let s := createSession p ts
    (.ok s, { st with chat_sessions := st.chat_sessions ++ [s] })

/-- In-place mutation of the first session with the given id (the object
`next(...)` returned in Python). -/
def updateSession : List InterviewSession → String → InterviewSession →
    List InterviewSession
  | [], _, _ => []
  | s :: rest, sid, s2 =>
    if s.session_id == sid then s2 :: rest else s :: updateSession rest sid s2

/-- `VirtualInterviewSystem.send_chat_message`: `ValueError` when no
session carries the id; a provider exception escapes with the session
list untouched. -/
def sendChatMessage (prov : VirtualPersona → String → Option String)
    (st : VirtualInterviewState) (sessionId : String) (message : String) :
    Except Err String × VirtualInterviewState :=
  match st.chat_sessions.find? (fun s => s.session_id == sessionId) with
  | none => (.error (.sessionNotFound sessionId), st)
  | some s =>
    match getPersonaResponse prov s message with
    | none => (.error .provider, st)
    | some rs =>
      (.ok rs.1,
        { st with chat_sessions := updateSession st.chat_sessions sessionId rs.2 })

/-- `VirtualInterviewSystem.conduct_fixed_interviews`: filter the state's
personas (in state order) by membership of their id in `personaIds`,
run the batch, and extend the state's fixed-interview list. -/
def conductFixedInterviewsSys (prov : VirtualPersona → String → Option String)
    (st : VirtualInterviewState) (personaIds : List String)
    (questions : List String) :
    Except Err (List FixedQuestionInterview) × VirtualInterviewState :=
  let selected := st.personas.filter (fun p => personaIds.contains p.id)
  match conductInterviews prov selected questions with
  | none => (.error .provider, st)
  | some ivs => (.ok ivs, { st with fixed_interviews := st.fixed_interviews ++ ivs })

/-- `VirtualInterviewSystem.generate_summary` (charts elided): replaces
the state's current summary wholesale. -/
def generateSummarySys (st : VirtualInterviewState)
    (insightsOut recsOut : String) :
    Except Err InterviewSummary × VirtualInterviewState :=
  let s := generateSummary st insightsOut recsOut
  (.ok s, { st with summary := some s })

/-! ## Call-sequence helpers for the session claims -/

/-- Successive `send_chat_message` calls on one session id, stopping at
the first failure (`none`). -/
def sendChatMessages (prov : VirtualPersona → String → Option String)
    (st : VirtualInterviewState) (sessionId : String) :
    List String → Option VirtualInterviewState
  | [] => some st
  | m :: ms =>
    match sendChatMessage prov st sessionId m with
    | (.ok _, st2) => sendChatMessages prov st2 sessionId ms
    | (.error _, _) => none

/-! ## Sample data reused across theorems -/

/-- A sample persona with id `p1`. -/
def personaA : VirtualPersona :=
  { id := "p1", name := "佐藤花子", age := 32, gender := "女性"
    occupation := "会社員", household_composition := "一人暮らし"
    income_level := "300-500万円", lifestyle := "普通"
    shopping_behavior := "月1回程度", personality := "慎重派"
    background_story := "背景" }

/-- A sample persona with id `p2`. -/
def personaB : VirtualPersona :=
  { id := "p2", name := "田中太郎", age := 45, gender := "男性"
    occupation := "教師", household_composition := "夫婦"
    income_level := "500-700万円", lifestyle := "活動的"
    shopping_behavior := "週1回程度", personality := "社交的"
    background_story := "背景" }

/-- A state holding the two sample personas. -/
def stTwoPersonas : VirtualInterviewState :=
  { initState with personas := [personaA, personaB] }

/-- A fresh chat session for `personaA` (id `chat_p1_t0`). -/
def sessionA : InterviewSession := createSession personaA "t0"

/-- A state holding one fresh chat session for `personaA`. -/
def stWithSessionA : VirtualInterviewState :=
  { initState with chat_sessions := [sessionA] }

/-! ## Helper lemmas -/

/-- With a provider that answers every call, the inner question loop
returns exactly one answer per question, in question order. -/
theorem interviewAnswers_total (prov : VirtualPersona → String → Option String)
    (f : VirtualPersona → String → String)
    (hp : ∀ p q, prov p q = some (f p q)) (p : VirtualPersona) :
    ∀ qs : List String, interviewAnswers prov p qs = some (qs.map (f p)) := by
  intro qs
  induction qs with
  | nil => rfl
  | cons q qs ih => simp [interviewAnswers, getPersonaAnswer, hp, ih]

/-- With a provider that answers every call, `conduct_interviews` yields
one `FixedQuestionInterview` per persona, in persona order, each with
the questions verbatim and positionally aligned answers. -/
theorem conductInterviews_total (prov : VirtualPersona → String → Option String)
    (f : VirtualPersona → String → String)
    (hp : ∀ p q, prov p q = some (f p q)) :
    ∀ (ps : List VirtualPersona) (qs : List String),
      conductInterviews prov ps qs =
        some (ps.map (fun p =>
          { persona := p, questions := qs, answers := qs.map (f p) })) := by
  intro ps qs
  induction ps with
  | nil => rfl
  | cons p ps ih => simp [conductInterviews, interviewAnswers_total prov f hp, ih]

/-- C1 counterexample data: a concrete `SurveyRequirements`. -/
def reqSnacks : SurveyRequirements :=
  { product_category := "お菓子", target_age_range := "20代"
    target_gender := "女性", survey_purpose := "新商品開発"
    key_questions := [], additional_requirements := "" }

/-- C1: a provider that returns empty text yields zero parsed personas,
not the requested one — the generator does not pad to `count`. -/
theorem generatePersonas_empty_output_not_padded :
    (generatePersonas reqSnacks 1 "").length = 0 ∧ (0 : Nat) ≠ 1 := by
  exact ⟨by decide, by decide⟩

/-- C1 (amended): `generate_personas` returns exactly the personas parsed
out of the provider text — the requested count influences only the
prompt, never the parse (so two different counts give the same output);
empty provider text yields no personas; and the number of personas never
exceeds the number of blank-line-separated sections of the output. -/
theorem generatePersonas_no_padding (req : SurveyRequirements)
    (count count2 : Nat) (result : String) :
    generatePersonas req count result = generatePersonas req count2 result ∧
    generatePersonas req count "" = [] ∧
    (generatePersonas req count result).length ≤
      (pySplitDoubleNewline (pyStrip result)).length := by
  refine ⟨rfl, rfl, ?_⟩
  unfold generatePersonas
  exact le_trans (List.length_filterMap_le _ _) (le_of_eq List.enum_length)

/-- C2 counterexample: with a provider that fails, a one-persona
one-question batch produces no interview at all — there is no
fallback answer and the batch aborts. -/
theorem conductInterviews_failure_no_fallback_counterexample :
    conductInterviews (fun _ _ => none) [personaA] ["この商品を使った経験はありますか"] = none := by
  rfl

/-- C2 (amended): a Completion Provider failure inside
`_get_persona_answer` is not caught in `conduct_interviews`: a failure on
the first persona's first question aborts the whole batch, producing no
`FixedQuestionInterview` for any persona. -/
theorem conductInterviews_first_failure_aborts_batch
    (prov : VirtualPersona → String → Option String)
    (p : VirtualPersona) (ps : List VirtualPersona)
    (q : String) (qs : List String) (h : prov p q = none) :
    conductInterviews prov (p :: ps) (q :: qs) = none := by
  simp [conductInterviews, interviewAnswers, getPersonaAnswer, h]

/-- Witness for C2's amended theorem at a concrete batch of two personas
and two questions. -/
theorem conductInterviews_first_failure_aborts_batch_witness :
    conductInterviews (fun _ _ => none) [personaB, personaA] ["Q1", "Q2"] = none := by
  exact conductInterviews_first_failure_aborts_batch
    (fun _ _ => none) personaB [personaA] "Q1" ["Q2"] rfl

/-- C3: whenever deserialization of the provider output fails,
`parse_requirements` returns (never raises) the deterministic fallback:
the five raw answers copied verbatim into the corresponding fields and
the fixed default `key_questions` list. -/
theorem parseRequirements_fallback_copies_answers
    (decode : String → Option SurveyRequirements) (result : String)
    (a1 a2 a3 a4 a5 : String) (h : decode result = none) :
    parseRequirements decode result [a1, a2, a3, a4, a5] =
      some { product_category := a1, target_age_range := a2
             target_gender := a3, survey_purpose := a4
             key_questions := defaultKeyQuestions
             additional_requirements := a5 } := by
  simp [parseRequirements, h]

/-- Witness for C3 at a concrete failing decode and concrete answers. -/
theorem parseRequirements_fallback_copies_answers_witness :
    parseRequirements (fun _ => none) "not json" ["化粧品", "20-30代", "女性", "新商品開発", "特になし"] =
      some { product_category := "化粧品", target_age_range := "20-30代"
             target_gender := "女性", survey_purpose := "新商品開発"
             key_questions := defaultKeyQuestions
             additional_requirements := "特になし" } := by
  exact parseRequirements_fallback_copies_answers
    (fun _ => none) "not json" "化粧品" "20-30代" "女性" "新商品開発" "特になし" rfl

/-- C4 counterexample: with the sample personas `p1, p2` in the state and
the ids requested in the order `["p2", "p1"]`, the interviews come back
in state order `["p1", "p2"]`, not in requested-id order. -/
theorem conductFixedInterviews_order_counterexample :
    ((conductFixedInterviewsSys (fun _ _ => some "回答") stTwoPersonas
        ["p2", "p1"] ["Q"]).1.map (fun ivs => ivs.map (fun iv => iv.persona.id)))
      = .ok ["p1", "p2"] ∧
    (["p1", "p2"] : List String) ≠ ["p2", "p1"] := by
  exact ⟨rfl, by decide⟩

/-- C4 (amended): when every provider call succeeds, the personas of the
returned interviews are exactly the state's personas whose id occurs in
`personaIds`, in the order they appear in the state's persona collection
(not in the order of `personaIds`). -/
theorem conductFixedInterviews_output_in_state_order
    (prov : VirtualPersona → String → Option String)
    (f : VirtualPersona → String → String)
    (st : VirtualInterviewState) (personaIds questions : List String)
    (hp : ∀ p q, prov p q = some (f p q)) :
    ((conductFixedInterviewsSys prov st personaIds questions).1.map
        (fun ivs => ivs.map (fun iv => iv.persona)))
      = .ok (st.personas.filter (fun p => personaIds.contains p.id)) := by
  unfold conductFixedInterviewsSys
  simp only [conductInterviews_total prov f hp]
  simp only [Except.map, List.map_map]
  exact congrArg Except.ok (List.map_id' _)

/-- Witness for C4's amended theorem at the two sample personas and
reversed requested ids. -/
theorem conductFixedInterviews_output_in_state_order_witness :
    ((conductFixedInterviewsSys (fun _ q => some q) stTwoPersonas
        ["p2", "p1"] ["Q1", "Q2"]).1.map
        (fun ivs => ivs.map (fun iv => iv.persona)))
      = .ok (stTwoPersonas.personas.filter
          (fun p => (["p2", "p1"] : List String).contains p.id)) := by
  exact conductFixedInterviews_output_in_state_order
    (fun _ q => some q) (fun _ q => q) stTwoPersonas ["p2", "p1"] ["Q1", "Q2"]
    (fun _ _ => rfl)

/-- C5 counterexample: on the empty state (no personas at all),
`conduct_fixed_interviews` does not fail with any error — it returns an
empty interview list. -/
theorem conductFixedInterviews_empty_personas_ok_counterexample :
    initState.personas = [] ∧
    (conductFixedInterviewsSys (fun _ _ => some "a") initState ["x"] ["Q"]).1
      = .ok [] := by
  exact ⟨rfl, rfl⟩

/-- C5 (amended): `generate_personas` fails with a `ValueError` when the
requirements are unset; `start_chat_session` fails with a `ValueError`
when the persona collection is empty; `send_chat_message` fails with a
`ValueError` when the session collection is empty (which an empty
persona collection entails, since sessions are only ever created for an
existing persona); but `conduct_fixed_interviews` does not fail on an
empty persona collection — it returns an empty interview list. -/
theorem orchestrator_precondition_errors :
    (∀ (st : VirtualInterviewState) (count : Nat) (result : String),
        st.survey_requirements = none →
        (generatePersonasSys st count result).1 = .error .surveyRequirementsNotSet) ∧
    (∀ (st : VirtualInterviewState) (pid ts : String),
        st.personas = [] →
        (startChatSession st pid ts).1 = .error (.personaNotFound pid)) ∧
    (∀ (prov : VirtualPersona → String → Option String)
        (st : VirtualInterviewState) (sid msg : String),
        st.chat_sessions = [] →
        (sendChatMessage prov st sid msg).1 = .error (.sessionNotFound sid)) ∧
    (∀ (prov : VirtualPersona → String → Option String)
        (st : VirtualInterviewState) (ids qs : List String),
        st.personas = [] →
        (conductFixedInterviewsSys prov st ids qs).1 = .ok []) ∧
    (∀ pid sid : String,
        Err.surveyRequirementsNotSet.isValueError = true ∧
        (Err.personaNotFound pid).isValueError = true ∧
        (Err.sessionNotFound sid).isValueError = true) := by
  refine ⟨?_, ?_, ?_, ?_, ?_⟩
  · intro st count result h
    simp [generatePersonasSys, h]
  · intro st pid ts h
    simp [startChatSession, h]
  · intro prov st sid msg h
    simp [sendChatMessage, h]
  · intro prov st ids qs h
    simp [conductFixedInterviewsSys, h, conductInterviews]
  · intro pid sid
    exact ⟨rfl, rfl, rfl⟩

/-- Witness for C5's amended theorem on the empty state. -/
theorem orchestrator_precondition_errors_witness :
    (generatePersonasSys initState 5 "text").1 = .error .surveyRequirementsNotSet ∧
    (startChatSession initState "p9" "t").1 = .error (.personaNotFound "p9") ∧
    (sendChatMessage (fun _ _ => none) initState "s9" "hi").1
      = .error (.sessionNotFound "s9") ∧
    (conductFixedInterviewsSys (fun _ _ => none) initState ["p9"] ["Q"]).1 = .ok [] ∧
    Err.surveyRequirementsNotSet.isValueError = true := by
  exact ⟨orchestrator_precondition_errors.1 initState 5 "text" rfl,
    orchestrator_precondition_errors.2.1 initState "p9" "t" rfl,
    orchestrator_precondition_errors.2.2.1 (fun _ _ => none) initState "s9" "hi" rfl,
    orchestrator_precondition_errors.2.2.2.1 (fun _ _ => none) initState ["p9"] ["Q"] rfl,
    (orchestrator_precondition_errors.2.2.2.2 "p9" "s9").1⟩

/-- C6 counterexample: one `collect_survey_requirements` call (fallback
path) followed by one `generate_personas` call whose provider output
names two personas with the same `ID: x` leaves the state's persona
collection with the id `x` twice — uniqueness is not an invariant. -/
theorem persona_id_duplication_counterexample :
    ((generatePersonasSys
        (collectSurveyRequirementsSys initState (fun _ => none) ""
          ["お菓子", "20代", "女性", "新商品開発", "なし"]).2
        2 "ID: x\n名前: A\n\nID: x\n名前: B").2.personas.map
        (fun p => p.id)) = ["x", "x"] ∧
    ¬ (["x", "x"] : List String).Nodup := by
  exact ⟨by decide, by decide⟩

/-- C6 (amended): `generate_personas` appends the parsed batch to the
state's persona collection verbatim — no id deduplication or uniqueness
check is performed, so ids may repeat within a batch and across calls. -/
theorem generatePersonasSys_appends_batch_verbatim
    (st : VirtualInterviewState) (count : Nat) (result : String)
    (req : SurveyRequirements) (h : st.survey_requirements = some req) :
    generatePersonasSys st count result =
      (.ok (generatePersonas req count result),
       { st with personas := st.personas ++ generatePersonas req count result }) := by
  simp [generatePersonasSys, h]

/-- Witness for C6's amended theorem at a concrete state. -/
theorem generatePersonasSys_appends_batch_verbatim_witness :
    generatePersonasSys { initState with survey_requirements := some reqSnacks }
        3 "ID: y\n名前: C" =
      (.ok (generatePersonas reqSnacks 3 "ID: y\n名前: C"),
       { initState with survey_requirements := some reqSnacks
                        personas := initState.personas ++
                          generatePersonas reqSnacks 3 "ID: y\n名前: C" }) := by
  exact generatePersonasSys_appends_batch_verbatim
    { initState with survey_requirements := some reqSnacks } 3 "ID: y\n名前: C"
    reqSnacks rfl

/-- Replacing the first id-matching session keeps it the first
id-matching session: lookups after the in-place mutation see the
mutated object, as in Python. -/
theorem find?_updateSession (sid : String) (s2 : InterviewSession) :
    ∀ (l : List InterviewSession) (s : InterviewSession),
      l.find? (fun x => x.session_id == sid) = some s →
      s2.session_id = s.session_id →
      (updateSession l sid s2).find? (fun x => x.session_id == sid) = some s2 := by
  intro l
  induction l with
  | nil => intro s h _; simp [List.find?] at h
  | cons a l ih =>
    intro s h hs
    cases hb : (a.session_id == sid) with
    | true =>
      rw [@List.find?_cons_of_pos _ (fun x => x.session_id == sid) a l hb] at h
      injection h with h
      subst h
      have hs2 : (s2.session_id == sid) = true := by
        rw [hs]; exact hb
      simp only [updateSession, hb, if_true]
      exact @List.find?_cons_of_pos _ (fun x => x.session_id == sid) s2 l hs2
    | false =>
      have hneg : ¬ ((fun x : InterviewSession => x.session_id == sid) a = true) := by
        simp [hb]
      rw [@List.find?_cons_of_neg _ (fun x => x.session_id == sid) a l hneg] at h
      simp only [updateSession, hb, Bool.false_eq_true, if_false]
      rw [@List.find?_cons_of_neg _ (fun x => x.session_id == sid) a
        (updateSession l sid s2) hneg]
      exact ih s h hs

/-- One successful `send_chat_message` step, spelled out: the provider
answer comes back and the found session gains the user turn then the
assistant turn. -/
theorem sendChatMessage_ok_step (prov : VirtualPersona → String → Option String)
    (f : VirtualPersona → String → String)
    (hp : ∀ p m, prov p m = some (f p m))
    (st : VirtualInterviewState) (sid m : String) (s : InterviewSession)
    (hfind : st.chat_sessions.find? (fun x => x.session_id == sid) = some s) :
    sendChatMessage prov st sid m =
      (.ok (f s.persona m),
       { st with
          chat_sessions :=
            updateSession st.chat_sessions sid
              ({ s with
                  messages := s.messages ++
                    [{ role := "user", content := m },
                     { role := "assistant", content := f s.persona m }] }) }) := by
  simp [sendChatMessage, hfind, getPersonaResponse, hp]

/-- Iterating successful `send_chat_message` calls appends, per call, the
user turn then the assistant turn to the session found under `sid`. -/
theorem sendChatMessages_ok_aux (prov : VirtualPersona → String → Option String)
    (f : VirtualPersona → String → String)
    (hp : ∀ p m, prov p m = some (f p m)) (sid : String) :
    ∀ (msgs : List String) (st : VirtualInterviewState) (s : InterviewSession)
      (st2 : VirtualInterviewState),
      st.chat_sessions.find? (fun x => x.session_id == sid) = some s →
      sendChatMessages prov st sid msgs = some st2 →
      st2.chat_sessions.find? (fun x => x.session_id == sid) =
        some { session_id := s.session_id, persona := s.persona,
               messages := s.messages ++ msgs.flatMap (fun m =>
                 [{ role := "user", content := m },
                  { role := "assistant", content := f s.persona m }]) } := by
  intro msgs
  induction msgs with
  | nil =>
    intro st s st2 hfind hrun
    simp only [sendChatMessages, Option.some.injEq] at hrun
    subst hrun
    simpa using hfind
  | cons m ms ih =>
    intro st s st2 hfind hrun
    simp only [sendChatMessages, sendChatMessage_ok_step prov f hp st sid m s hfind] at hrun
    have hfind2 := find?_updateSession sid
      ({ s with messages := s.messages ++
          [{ role := "user", content := m },
           { role := "assistant", content := f s.persona m }] })
      st.chat_sessions s hfind rfl
    have := ih _ _ _ hfind2 hrun
    simpa [List.append_assoc] using this

/-- Interleaving a user turn and an assistant turn per message doubles
the count. -/
theorem length_flatMap_two (g h : String → ChatMessage) :
    ∀ msgs : List String,
      (msgs.flatMap (fun m => [g m, h m])).length = 2 * msgs.length := by
  intro msgs
  induction msgs with
  | nil => rfl
  | cons m ms ih => simp [List.flatMap_cons, ih]; ring

/-- C7: starting from a session with no turns, `k` successful
`send_chat_message` calls leave the session with exactly the `2k` turns
user/assistant, user/assistant, …, in call order, the user turn carrying
the sent text and the assistant turn the provider response. -/
theorem sendChatMessages_appends_user_assistant_turns
    (prov : VirtualPersona → String → Option String)
    (f : VirtualPersona → String → String)
    (st : VirtualInterviewState) (sid : String) (s : InterviewSession)
    (msgs : List String) (st2 : VirtualInterviewState)
    (hp : ∀ p m, prov p m = some (f p m))
    (hfind : st.chat_sessions.find? (fun x => x.session_id == sid) = some s)
    (hfresh : s.messages = [])
    (hrun : sendChatMessages prov st sid msgs = some st2) :
    ∃ s2, st2.chat_sessions.find? (fun x => x.session_id == sid) = some s2 ∧
      s2.messages = msgs.flatMap (fun m =>
        [{ role := "user", content := m },
         { role := "assistant", content := f s.persona m }]) ∧
      s2.messages.length = 2 * msgs.length := by
  refine ⟨_, sendChatMessages_ok_aux prov f hp sid msgs st s st2 hfind hrun, ?_, ?_⟩
  · simp [hfresh]
  · simp only [hfresh, List.nil_append]
    exact length_flatMap_two _ _ msgs

/-- The state after one successful message on `stWithSessionA`. -/
def stAfterOneMessage : VirtualInterviewState :=
  { initState with chat_sessions :=
      [{ sessionA with messages :=
          [{ role := "user", content := "m1" },
           { role := "assistant", content := "A:m1" }] }] }

/-- Witness for C7 at one concrete message. -/
theorem sendChatMessages_appends_user_assistant_turns_witness :
    ∃ s2, stAfterOneMessage.chat_sessions.find?
        (fun x => x.session_id == "chat_p1_t0") = some s2 ∧
      s2.messages = (["m1"].flatMap (fun m =>
        [{ role := "user", content := m },
         { role := "assistant", content := "A:" ++ m }])) ∧
      s2.messages.length = 2 * (["m1"] : List String).length := by
  exact sendChatMessages_appends_user_assistant_turns
    (fun _ m => some ("A:" ++ m)) (fun _ m => "A:" ++ m)
    stWithSessionA "chat_p1_t0" sessionA ["m1"] stAfterOneMessage
    (fun _ _ => rfl) (by decide) rfl (by decide)

/-- C8: a generated summary counts every persona in the state, counts
chat sessions plus fixed interviews as the interview total, and caps
insights at 5 and recommendations at 3. -/
theorem generateSummary_field_bounds (st : VirtualInterviewState)
    (insightsOut recsOut : String) :
    (generateSummary st insightsOut recsOut).total_personas = st.personas.length ∧
    (generateSummary st insightsOut recsOut).total_interviews =
      st.chat_sessions.length + st.fixed_interviews.length ∧
    (generateSummary st insightsOut recsOut).key_insights.length ≤ 5 ∧
    (generateSummary st insightsOut recsOut).recommendations.length ≤ 3 := by
  refine ⟨rfl, rfl, ?_, ?_⟩
  · exact List.length_take_le _ _
  · exact List.length_take_le _ _

/-- C9 counterexample: a provider that answers the first question and
fails on the second leaves no `FixedQuestionInterview` at all — the
persona does not get an answers list matching the questions. -/
theorem conductInterviews_partial_failure_counterexample :
    conductInterviews (fun _ q => if q = "Q1" then some "A1" else none)
      [personaA] ["Q1", "Q2"] = none := by
  decide

/-- C9 (amended): when every provider call succeeds, each selected
persona gets one interview whose questions are the input questions
verbatim and whose answers list has the same length, the answer at each
position being the provider's answer to the question at that position;
when a call fails the whole batch fails instead (no partial output). -/
theorem conductInterviews_answers_aligned_when_provider_succeeds
    (prov : VirtualPersona → String → Option String)
    (f : VirtualPersona → String → String)
    (ps : List VirtualPersona) (qs : List String)
    (hp : ∀ p q, prov p q = some (f p q)) :
    conductInterviews prov ps qs =
      some (ps.map (fun p =>
        { persona := p, questions := qs, answers := qs.map (f p) })) ∧
    ∀ iv ∈ ps.map (fun p =>
        ({ persona := p, questions := qs, answers := qs.map (f p) } :
          FixedQuestionInterview)),
      iv.answers.length = iv.questions.length := by
  refine ⟨conductInterviews_total prov f hp ps qs, ?_⟩
  intro iv hiv
  simp only [List.mem_map] at hiv
  obtain ⟨p, _, rfl⟩ := hiv
  simp

/-- Witness for C9's amended theorem at a concrete persona and two
questions. -/
theorem conductInterviews_answers_aligned_witness :
    conductInterviews (fun _ q => some ("A" ++ q)) [personaB] ["Q1", "Q2"] =
      some ([personaB].map (fun p =>
        { persona := p, questions := ["Q1", "Q2"]
          answers := ["Q1", "Q2"].map (fun q => "A" ++ q) })) ∧
    ∀ iv ∈ [personaB].map (fun p =>
        ({ persona := p, questions := ["Q1", "Q2"]
           answers := ["Q1", "Q2"].map (fun q => "A" ++ q) } :
          FixedQuestionInterview)),
      iv.answers.length = iv.questions.length := by
  exact conductInterviews_answers_aligned_when_provider_succeeds
    (fun _ q => some ("A" ++ q)) (fun _ q => "A" ++ q) [personaB] ["Q1", "Q2"]
    (fun _ _ => rfl)

/-- C10: when the Completion Provider call for the found session fails,
`send_chat_message` raises and the state — in particular the session's
turn list — is exactly the state before the call: both turns are
appended only after the provider returns. -/
theorem sendChatMessage_provider_failure_leaves_state
    (prov : VirtualPersona → String → Option String)
    (st : VirtualInterviewState) (sid msg : String) (s : InterviewSession)
    (hfind : st.chat_sessions.find? (fun x => x.session_id == sid) = some s)
    (hfail : prov s.persona msg = none) :
    sendChatMessage prov st sid msg = (.error .provider, st) := by
  simp [sendChatMessage, hfind, getPersonaResponse, hfail]

/-- Witness for C10 at a concrete session and failing provider. -/
theorem sendChatMessage_provider_failure_leaves_state_witness :
    sendChatMessage (fun _ _ => none) stWithSessionA "chat_p1_t0" "こんにちは" =
      (.error .provider, stWithSessionA) := by
  exact sendChatMessage_provider_failure_leaves_state
    (fun _ _ => none) stWithSessionA "chat_p1_t0" "こんにちは" sessionA
    (by decide) rfl
